import Mathlib

/-!
Verification of the feature-extraction service core against its sources.

The Python sources are shallowly embedded:
* JSON/Python values become the inductive `PyVal`; `isinstance` checks become
  predicates on constructors (a Python `bool` is a subclass of `int`, so the
  int-like predicates accept `vbool`);
* each function that a claim touches becomes a Lean function over explicit
  inputs (attempt-outcome oracles for I/O, rational clocks for `time.time()`),
  returning the value produced together with a trace of the observable actions
  (acks, nacks, sleeps, publishes).
-/

namespace FeatureSvc

/-- Embedded Python/JSON value (the values that flow through `json.loads`,
the Grok response record and the queue message bodies). -/
inductive PyVal where
  | vnone : PyVal
  | vbool : Bool → PyVal
  | vint : Int → PyVal
  | vfloat : ℚ → PyVal
  | vstr : String → PyVal
  | vlist : List PyVal → PyVal
  | vdict : List (String × PyVal) → PyVal

/-- A Python dict with string keys, in insertion order. -/
abbrev PyDict := List (String × PyVal)

/-- First-match key lookup, the embedding of `d[k]` / `d.get(k)`. -/
def lookupKey (kvs : PyDict) (k : String) : Option PyVal :=
  match kvs with
  | [] => none
  | (k₀, v) :: rest => if k₀ = k then some v else lookupKey rest k

/-- `features[field]` after presence has been established; defaults to
`vnone` in the (unreached) absent case. -/
def getf (fs : PyDict) (k : String) : PyVal :=
  (lookupKey fs k).getD PyVal.vnone

/-- `isinstance(x, list)`. -/
def isList : PyVal → Bool
  | .vlist _ => true
  | _ => false

/-- `isinstance(x, bool)`. -/
def isBool : PyVal → Bool
  | .vbool _ => true
  | _ => false

/-- `isinstance(x, int)`: Python booleans are ints. -/
def isIntLike : PyVal → Bool
  | .vint _ => true
  | .vbool _ => true
  | _ => false

/-- `isinstance(x, (int, float))`: booleans pass here as well. -/
def isNumLike : PyVal → Bool
  | .vint _ => true
  | .vbool _ => true
  | .vfloat _ => true
  | _ => false

/-- `isinstance(x, str)`. -/
def isStr : PyVal → Bool
  | .vstr _ => true
  | _ => false

/-- `isinstance(x, dict)`. -/
def isDict : PyVal → Bool
  | .vdict _ => true
  | _ => false

/-- Numeric value of an int/bool/float, used by the range comparisons
(`True` compares as `1`, `False` as `0`); other shapes never reach a
comparison in the embedded code paths. -/
def toRat : PyVal → ℚ
  | .vint n => (n : ℚ)
  | .vbool b => if b then 1 else 0
  | .vfloat q => q
  | _ => 0

/-- Python `v == s` for a string literal `s`: true only for an equal string. -/
def pyEqStr (v : PyVal) (s : String) : Bool :=
  match v with
  | .vstr t => t = s
  | _ => false

/-- Python `v in listOfStrings`. -/
def pyInStrs (v : PyVal) (ss : List String) : Bool :=
  ss.any (pyEqStr v)

/-! ### `GrokClient._validate_features` (src/shared/utils/grok_utils.py) -/

def requiredFields : List String :=
  ["unlu_isimler", "firmalar", "ulkeler", "kurumlar",
   "is_makroekonomi", "is_mikroekonomi", "alt_kategori", "guven_skoru_makro",
   "olay_tipi", "etki_yonu", "etkilenen_varlik_sinifi", "piyasa_etki_tahmini",
   "etki_degeri_confidence",
   "duygu", "duygu_skoru", "ton", "aciliyet",
   "surpriz_mi", "surpriz_confidence",
   "etki_suresi", "gelecege_yonelik_mi", "gelecek_confidence",
   "sayisal_degerler", "beklenti_karsilama"]

def arrayFields : List String :=
  ["unlu_isimler", "firmalar", "ulkeler", "kurumlar", "etkilenen_varlik_sinifi"]

def booleanFields : List String :=
  ["is_makroekonomi", "is_mikroekonomi", "surpriz_mi", "gelecege_yonelik_mi"]

def floatFields : List String :=
  ["guven_skoru_makro", "duygu_skoru", "etki_degeri_confidence",
   "surpriz_confidence", "gelecek_confidence"]

def stringFields : List String :=
  ["olay_tipi", "etki_yonu", "duygu", "ton", "aciliyet",
   "etki_suresi", "beklenti_karsilama"]

def allowedEtkiYonu : List String := ["pozitif", "negatif", "notr"]
def allowedDuygu : List String :=
  ["pozitif", "negatif", "notr_pozitif", "notr_negatif", "notr"]
def allowedTon : List String := ["resmi", "teknik", "populer", "belirsiz"]
def allowedAciliyet : List String := ["yuksek", "orta", "dusuk"]
def allowedEtkiSuresi : List String := ["kisa_vadeli", "uzun_vadeli", "belirsiz"]
def allowedBeklenti : List String :=
  ["ustunde", "altinda", "beklendiği_gibi", "belirsiz"]
def allowedAssets : List String :=
  ["TL", "BIST100", "USDTRY", "EURTRY", "ALTIN", "BRENT", "tahvil"]
def allowedDirections : List String :=
  ["guclenme", "zayiflama", "stabil", "pozitif", "negatif"]

/-- The required fields absent from the record (source collects them all
before raising). -/
def missingFields (fs : PyDict) : List String :=
  requiredFields.filter (fun f => (lookupKey fs f).isNone)

def chkMissing (fs : PyDict) : Except String Unit :=
  match missingFields fs with
  | [] => .ok ()
  | _ :: _ => .error "missing required fields"

/-- First field of `fields` failing predicate `p` raises, as in the source
`for` loops over the type-check lists. -/
def typeCheck (fs : PyDict) (p : PyVal → Bool) (msg : String)
    (fields : List String) : Except String Unit :=
  match fields.find? (fun f => !(p (getf fs f))) with
  | some f => .error (msg ++ " " ++ f)
  | none => .ok ()

def chkArrays (fs : PyDict) : Except String Unit :=
  typeCheck fs isList "list olmali" arrayFields

def chkBooleans (fs : PyDict) : Except String Unit :=
  typeCheck fs isBool "boolean olmali" booleanFields

def chkFloatTypes (fs : PyDict) : Except String Unit :=
  typeCheck fs isNumLike "float olmali" floatFields

def chkAltKategoriType (fs : PyDict) : Except String Unit :=
  if isIntLike (getf fs "alt_kategori") then .ok ()
  else .error "alt_kategori int olmali"

def chkStringTypes (fs : PyDict) : Except String Unit :=
  typeCheck fs isStr "string olmali" stringFields

def chkPiyasaDict (fs : PyDict) : Except String Unit :=
  if isDict (getf fs "piyasa_etki_tahmini") then .ok ()
  else .error "piyasa_etki_tahmini dict olmali"

def chkSayisalDict (fs : PyDict) : Except String Unit :=
  if isDict (getf fs "sayisal_degerler") then .ok ()
  else .error "sayisal_degerler dict olmali"

/-- `0.0 <= value <= 1.0` over the five confidence fields. -/
def chkFloatRange (fs : PyDict) : Except String Unit :=
  match floatFields.find?
      (fun f => !(decide (0 ≤ toRat (getf fs f)) && decide (toRat (getf fs f) ≤ 1))) with
  | some f => .error ("0.00-1.00 arasinda olmali " ++ f)
  | none => .ok ()

def chkAltKategoriRange (fs : PyDict) : Except String Unit :=
  if 0 ≤ toRat (getf fs "alt_kategori") ∧ toRat (getf fs "alt_kategori") ≤ 13 then .ok ()
  else .error "alt_kategori 0-13 arasinda olmali"

def chkEnum (fs : PyDict) (field : String) (allowed : List String) :
    Except String Unit :=
  if pyInStrs (getf fs field) allowed then .ok ()
  else .error ("gecersiz enum " ++ field)

/-- Each `kurumlar` entry must be a dict with string `ad` and int `id`
(the int check again admits booleans). -/
def chkKurum (k : PyVal) : Except String Unit :=
  match k with
  | .vdict kv =>
    if (lookupKey kv "ad").isNone || (lookupKey kv "id").isNone then
      .error "kurumlar girdisi ad ve id icermeli"
    else if !(isStr (getf kv "ad")) then .error "kurumlar ad string olmali"
    else if !(isIntLike (getf kv "id")) then .error "kurumlar id int olmali"
    else .ok ()
  | _ => .error "kurumlar girdisi dict olmali"

def chkKurumList : List PyVal → Except String Unit
  | [] => .ok ()
  | k :: rest =>
    match chkKurum k with
    | .ok _ => chkKurumList rest
    | .error e => .error e

def chkKurumlar (fs : PyDict) : Except String Unit :=
  match getf fs "kurumlar" with
  | .vlist ks => chkKurumList ks
  | _ => .ok ()   -- unreachable: `chkArrays` already rejected non-lists

def chkAssetList : List PyVal → Except String Unit
  | [] => .ok ()
  | a :: rest =>
    if pyInStrs a allowedAssets then chkAssetList rest
    else .error "gecersiz asset"

def chkVarlikSinifi (fs : PyDict) : Except String Unit :=
  match getf fs "etkilenen_varlik_sinifi" with
  | .vlist xs => chkAssetList xs
  | _ => .ok ()   -- unreachable after `chkArrays`

def chkPiyasaKeys (fs : PyDict) : Except String Unit :=
  match getf fs "piyasa_etki_tahmini" with
  | .vdict kvs =>
    match kvs.find? (fun kv => !(allowedAssets.contains kv.1)) with
    | some _ => .error "gecersiz asset key"
    | none => .ok ()
  | _ => .ok ()   -- unreachable after `chkPiyasaDict`

def chkPiyasaValues (fs : PyDict) : Except String Unit :=
  match getf fs "piyasa_etki_tahmini" with
  | .vdict kvs =>
    match kvs.find? (fun kv => !(pyInStrs kv.2 allowedDirections)) with
    | some _ => .error "gecersiz direction"
    | none => .ok ()
  | _ => .ok ()   -- unreachable after `chkPiyasaDict`

/-- Sequencing of the validation stages: the first raising stage wins. -/
def seqChecks : List (Except String Unit) → Except String Unit
  | [] => .ok ()
  | c :: rest =>
    match c with
    | .ok _ => seqChecks rest
    | .error e => .error e

/-- `GrokClient._validate_features`, stages in source order. -/
def validateFeatures (fs : PyDict) : Except String Unit :=
  seqChecks
    [chkMissing fs,
     chkArrays fs, chkBooleans fs, chkFloatTypes fs, chkAltKategoriType fs,
     chkStringTypes fs, chkPiyasaDict fs, chkSayisalDict fs,
     chkFloatRange fs, chkAltKategoriRange fs,
     chkEnum fs "etki_yonu" allowedEtkiYonu,
     chkEnum fs "duygu" allowedDuygu,
     chkEnum fs "ton" allowedTon,
     chkEnum fs "aciliyet" allowedAciliyet,
     chkEnum fs "etki_suresi" allowedEtkiSuresi,
     chkEnum fs "beklenti_karsilama" allowedBeklenti,
     chkKurumlar fs, chkVarlikSinifi fs, chkPiyasaKeys fs, chkPiyasaValues fs]

/-! ### `GrokClient._send_request` / `extract_features` (src/shared/utils/grok_utils.py) -/

/-- Exceptions of src/shared/utils/grok_exceptions.py, as raised by the client. -/
inductive GrokError where
  | timeout : GrokError
  | conn : GrokError
  | auth : GrokError
  | rateLimit : GrokError
  | parse : String → GrokError
  | api : Nat → GrokError

/-- Environment-supplied outcome of one HTTP attempt: a transport failure,
a non-200 status, a 200 whose content is not JSON even after the fenced-block
cleanup, or a 200 with a parsed JSON record (still to be validated). -/
inductive SendResult where
  | httpTimeout : SendResult
  | connectError : SendResult
  | httpStatus : Nat → SendResult
  | badContent : SendResult
  | parsed : PyDict → SendResult

/-- `_send_request` after the POST: the status-code ladder
(401 → auth, 429 → rate limit, ≥500 → API error, other non-200 → API error),
the JSON-decode failure path, then `_validate_features`; a validation
violation raises `GrokParseError`. -/
def sendRequest : SendResult → Except GrokError PyDict
  | .httpTimeout => .error .timeout
  | .connectError => .error .conn
  | .httpStatus c =>
    if c = 401 then .error .auth
    else if c = 429 then .error .rateLimit
    else .error (.api c)
  | .badContent => .error (.parse "json decode edilemedi")
  | .parsed fs =>
    match validateFeatures fs with
    | .ok _ => .ok fs
    | .error e => .error (.parse e)

/-- Which errors the `except (GrokTimeoutError, GrokConnectionError)` clause
of `extract_features` catches; every other exception leaves the loop at once
(`GrokAuthError`/`GrokParseError`/`GrokAPIError` are re-raised by their own
clause, `GrokRateLimitError` is caught by no clause at all). -/
def retryableErr : GrokError → Bool
  | .timeout => true
  | .conn => true
  | _ => false

/-- Result of a full `extract_features` call: the returned record, the raised
exception, or the implicit `None` return of an empty `for` range. -/
inductive ExtractOut where
  | success : PyDict → ExtractOut
  | failure : GrokError → ExtractOut
  | noneReturn : ExtractOut

structure ExtractTrace where
  outcome : ExtractOut
  sleeps : List ℚ
  attempts : ℕ

/-- The `for attempt in range(1, max_retries + 1)` loop body of
`extract_features`: retryable errors below the cap sleep `2 ** attempt`
seconds and continue; everything else returns or raises immediately. -/
def extractGo (o : ℕ → SendResult) (maxRetries : ℕ) :
    List ℕ → ExtractTrace
  | [] => ⟨.noneReturn, [], 0⟩
  | a :: rest =>
    match sendRequest (o a) with
    | .ok fs => ⟨.success fs, [], 1⟩
    | .error e =>
      if retryableErr e ∧ a < maxRetries then
        let t := extractGo o maxRetries rest
        ⟨t.outcome, (2 : ℚ) ^ a :: t.sleeps, t.attempts + 1⟩
      else ⟨.failure e, [], 1⟩

/-- `GrokClient.extract_features` retry loop, with `o a` the outcome of the
`a`-th HTTP attempt (attempts are numbered from 1 as in the source). -/
def extractFeaturesModel (o : ℕ → SendResult) (maxRetries : ℕ) : ExtractTrace :=
  extractGo o maxRetries (List.range' 1 maxRetries)

/-! ### Rate limiters -/

/-- One `GrokClient._apply_rate_limit` call: state is the instance's
`last_request_time`; `now` is `time.time()` at entry. `wait` is the sleep
performed, `hits` the increment of the `rate_limit_hits` counter, `newLast`
the updated `last_request_time` (taken after the sleep, so `now + wait`). -/
structure RateLimitStep where
  wait : ℚ
  hits : ℕ
  newLast : ℚ

def grokApplyRateLimit (rateLimit : ℕ) (lastRequestTime now : ℚ) :
    RateLimitStep :=
  if rateLimit = 0 then ⟨0, 0, lastRequestTime⟩
  else
    let timeSinceLast := now - lastRequestTime
    let minInterval := 60 / (rateLimit : ℚ)
    if timeSinceLast < minInterval then
      ⟨minInterval - timeSinceLast, 1, now + (minInterval - timeSinceLast)⟩
    else
      ⟨0, 0, now⟩

/-- `RabbitMQManager._apply_rate_limit`: no last-call state at all; with a
non-zero limit it always sleeps the full `60 / rate_limit` interval and then
increments `rate_limit_hits`. Returns (sleep seconds, counter increment). -/
def rabbitApplyRateLimit (rateLimit : ℕ) : ℚ × ℕ :=
  if rateLimit = 0 then (0, 0)
  else (60 / (rateLimit : ℚ), 1)

/-! ### `RabbitMQManager._handle_message` (src/shared/utils/rabbitmq_utils.py) -/

/-- Observable broker-side actions taken while handling one delivery. -/
inductive MsgAction where
  | callbackCall : PyVal → PyVal → MsgAction
  | ack : MsgAction
  | nackNoRequeue : MsgAction
  | sleep : ℚ → MsgAction
  | publish : PyVal → ℚ → MsgAction

structure HandlerConfig where
  maxRetries : Int
  retryDelay : ℚ

/-- Numeric view used by `retry_count < self.max_retries`; `none` encodes the
`TypeError` a non-numeric comparison raises (caught by the generic handler). -/
def pyNum? : PyVal → Option ℚ
  | .vint n => some (n : ℚ)
  | .vbool b => some (if b then 1 else 0)
  | .vfloat q => some q
  | _ => none

/-- `2 ** retry_count` for a numeric Python value. A non-integer float
exponent would be a real power, which never occurs for queue messages
(the service only publishes integer retry counts); it is mapped to 0 here. -/
def pyTwoPow : PyVal → ℚ
  | .vint n => (2 : ℚ) ^ n
  | .vbool b => if b then 2 else 1
  | .vfloat q => if q.den = 1 then (2 : ℚ) ^ q.num else 0
  | _ => 0

/-- `_handle_message` over an already-attempted JSON parse of the body
(`none` = `json.JSONDecodeError`). The callback is the consumer function
(total: `process_message_wrapper` catches its own exceptions and returns
`False`). Returns the action trace in execution order. -/
def handleMessage (cfg : HandlerConfig) (parsed : Option PyDict)
    (cb : PyVal → PyVal → Bool) : List MsgAction :=
  match parsed with
  | none => [.nackNoRequeue]
  | some kvs =>
    let aid := (lookupKey kvs "article_id").getD .vnone
    let rc := (lookupKey kvs "retry_count").getD (.vint 0)
    if cb aid rc then
      [.callbackCall aid rc, .ack]
    else
      match pyNum? rc with
      | none => [.callbackCall aid rc, .nackNoRequeue]
      | some q =>
        if q < (cfg.maxRetries : ℚ) then
          [.callbackCall aid rc, .nackNoRequeue,
           .sleep (cfg.retryDelay * pyTwoPow rc),
           .publish aid (q + 1)]
        else
          [.callbackCall aid rc, .nackNoRequeue]

/-! ### Store gateway (src/shared/database.py) -/

/-- Outcome of one database attempt inside a retried operation:
a result, an `asyncpg.PostgresError`, or any other exception. -/
inductive DbAttempt (α : Type) where
  | ok : α → DbAttempt α
  | pgError : DbAttempt α
  | otherError : DbAttempt α

/-- How a retried store operation terminates: value returned, a
`PostgresError` re-raised after the last attempt, another exception
re-raised at once, or the implicit `None` of a zero-iteration loop. -/
inductive DbOutcome (α : Type) where
  | ok : α → DbOutcome α
  | pgRaise : DbOutcome α
  | otherRaise : DbOutcome α
  | fellThrough : DbOutcome α

/-- The `for deneme in range(max_deneme)` loop shared by `haberleri_getir`
and `haber_durumunu_guncelle`: on `PostgresError`, the last attempt
(`deneme == max_deneme - 1`) re-raises, earlier ones sleep
`min(8, 2 ** deneme) + jitter` and continue; other exceptions re-raise at
once. `jit d` is the loop-clock jitter `loop.time() % 0.25` observed on
attempt `d`. Returns (outcome, sleeps, attempts made). -/
def dbRetryGo {α : Type} (o : ℕ → DbAttempt α) (jit : ℕ → ℚ) (maxDeneme : ℕ) :
    List ℕ → DbOutcome α × List ℚ × ℕ
  | [] => (.fellThrough, [], 0)
  | d :: rest =>
    match o d with
    | .ok v => (.ok v, [], 1)
    | .otherError => (.otherRaise, [], 1)
    | .pgError =>
      if d = maxDeneme - 1 then (.pgRaise, [], 1)
      else
        let t := dbRetryGo o jit maxDeneme rest
        (t.1, (min 8 ((2 : ℚ) ^ d) + jit d) :: t.2.1, t.2.2 + 1)

/-- `VeriHavuzuYoneticisi.haberleri_getir`: the fetch of pending articles,
`o d` the result of the query on attempt `d` (a list of row dicts). -/
def haberleriGetir (o : ℕ → DbAttempt (List PyDict)) (jit : ℕ → ℚ)
    (maxDeneme : ℕ) : DbOutcome (List PyDict) × List ℚ × ℕ :=
  dbRetryGo o jit maxDeneme (List.range maxDeneme)

/-- `VeriHavuzuYoneticisi.haber_durumunu_guncelle`: `o d` yields the
`UPDATE` row count on attempt `d`; a positive count returns `True`,
zero returns `False`. -/
def haberDurumunuGuncelle (o : ℕ → DbAttempt ℕ) (jit : ℕ → ℚ)
    (maxDeneme : ℕ) : DbOutcome Bool × List ℚ × ℕ :=
  dbRetryGo (fun d =>
    match o d with
    | .ok n => .ok (decide (0 < n))
    | .pgError => .pgError
    | .otherError => .otherError) jit maxDeneme (List.range maxDeneme)

/-- Outcome of the single query of `haber_id_ile_getir`. -/
inductive FetchOneAttempt where
  | row : PyDict → FetchOneAttempt
  | noRow : FetchOneAttempt
  | pgError : FetchOneAttempt
  | otherError : FetchOneAttempt

/-- `VeriHavuzuYoneticisi.haber_id_ile_getir`: one attempt, no loop; every
exception is caught, logged, and the function falls through returning
`None`. Returns (result, attempts made). -/
def haberIdIleGetir (o : FetchOneAttempt) : Option PyDict × ℕ :=
  match o with
  | .row r => (some r, 1)
  | .noRow => (none, 1)
  | .pgError => (none, 1)
  | .otherError => (none, 1)

/-! ### Orchestrator (src/services/feature_worker/extractor.py) -/

/-- The article dict the store returns (id/title/content/source columns). -/
structure Article where
  title : String
  content : String
  source : String

/-- One row of `extracted_features` as built by `_save_features`:
`extraction_date` is the SQL `NOW()` (a total field — never null), the
model-version column is the literal passed as `$26`, and
`processingTimeMs` is the value passed as `$27`. -/
structure SavedRow where
  articleId : Int
  features : PyDict
  modelVersion : String
  extractionDate : ℚ
  processingTimeMs : ℚ

/-- Environment for one `extract_and_save` run: `startTime` is
`time.time()` at entry, `endTime` the wall clock when processing completes,
`dbNow` the database clock used by `NOW()`; `article` is what
`haber_id_ile_getir` produced, `sendOutcomes`/`maxRetries` drive the Grok
attempt loop. -/
structure OrchestratorEnv where
  isConnected : Bool
  articleId : Int
  article : Option Article
  sendOutcomes : ℕ → SendResult
  maxRetries : ℕ
  startTime : ℚ
  endTime : ℚ
  dbNow : ℚ

/-- `FeatureExtractor.extract_and_save`: connection guard, fetch, the empty
`content` `ValueError`, the Grok call, then `_save_features` — which is
handed `start_time` in its `processing_time_ms` parameter. All raised
errors are caught and collapsed to `False`; a row is inserted only on the
full success path. Returns (boolean outcome, inserted row if any). -/
def extractAndSave (env : OrchestratorEnv) : Bool × Option SavedRow :=
  if !env.isConnected then (false, none)
  else
    match env.article with
    | none => (false, none)
    | some art =>
      if art.content = "" then (false, none)
      else
        match (extractFeaturesModel env.sendOutcomes env.maxRetries).outcome with
        | .success fs =>
          (true, some ⟨env.articleId, fs, "grok-beta", env.dbNow, env.startTime⟩)
        | _ => (false, none)

/-- The duration `extract_and_save` measures for this run, in milliseconds
(`time.time() - start_time`, scaled). -/
def measuredDurationMs (env : OrchestratorEnv) : ℚ :=
  (env.endTime - env.startTime) * 1000

/-! ### Concrete records used to exercise the definitions -/

/-- Replace the value of an existing key (used to build test records). -/
def setField : PyDict → String → PyVal → PyDict
  | [], _, _ => []
  | (k₀, v₀) :: rest, k, v =>
    if k₀ = k then (k₀, v) :: rest else (k₀, v₀) :: setField rest k v

/-- A record with every required field present and every check satisfied
(the shape of the stub enrichment response used in the spec's end-to-end
scenario). -/
def goodRecord : PyDict :=
  [("unlu_isimler", .vlist []),
   ("firmalar", .vlist []),
   ("ulkeler", .vlist [.vstr "TR"]),
   ("kurumlar", .vlist [.vdict [("ad", .vstr "TCMB"), ("id", .vint 1)]]),
   ("is_makroekonomi", .vbool true),
   ("is_mikroekonomi", .vbool false),
   ("alt_kategori", .vint 0),
   ("guven_skoru_makro", .vfloat 1),
   ("olay_tipi", .vstr "faiz_degisikligi"),
   ("etki_yonu", .vstr "notr"),
   ("etkilenen_varlik_sinifi", .vlist [.vstr "TL", .vstr "BIST100"]),
   ("piyasa_etki_tahmini", .vdict [("TL", .vstr "stabil")]),
   ("etki_degeri_confidence", .vfloat 0),
   ("duygu", .vstr "notr"),
   ("duygu_skoru", .vint 1),
   ("ton", .vstr "resmi"),
   ("aciliyet", .vstr "orta"),
   ("surpriz_mi", .vbool false),
   ("surpriz_confidence", .vfloat 1),
   ("etki_suresi", .vstr "belirsiz"),
   ("gelecege_yonelik_mi", .vbool false),
   ("gelecek_confidence", .vfloat 0),
   ("sayisal_degerler", .vdict []),
   ("beklenti_karsilama", .vstr "belirsiz")]

/-- `goodRecord` with an `olay_tipi` value that appears in no vocabulary. -/
def olayFreeRecord : PyDict :=
  setField goodRecord "olay_tipi" (.vstr "serbest_deger_xyz")

/-- `goodRecord` with booleans in a confidence field and in `alt_kategori`. -/
def boolNumericRecord : PyDict :=
  setField (setField goodRecord "surpriz_confidence" (.vbool true))
    "alt_kategori" (.vbool true)

/-- `goodRecord` with an out-of-vocabulary `duygu` value. -/
def badDuyguRecord : PyDict :=
  setField goodRecord "duygu" (.vstr "mutlu")

/-- A successful end-to-end run: connected, article found, Grok returns the
valid record on the first attempt; `time.time()` is 1000 at entry and 1002
when the run completes. -/
def okRunEnv : OrchestratorEnv :=
  { isConnected := true
    articleId := 123
    article := some ⟨"TCMB karari", "TCMB faizi yuzde 50 sabit tuttu", "test"⟩
    sendOutcomes := fun _ => .parsed goodRecord
    maxRetries := 3
    startTime := 1000
    endTime := 1002
    dbNow := 1002 }

/-- The same run but with an enrichment response whose `duygu` is invalid. -/
def badRunEnv : OrchestratorEnv :=
  { okRunEnv with sendOutcomes := fun _ => .parsed badDuyguRecord }

/-! ### Helper lemmas -/

theorem seqChecks_ok_iff (l : List (Except String Unit)) :
    seqChecks l = .ok () ↔ ∀ c ∈ l, c = .ok () := by
  induction l with
  | nil => simp [seqChecks]
  | cons c rest ih =>
    cases c with
    | ok u =>
      cases u
      simp only [seqChecks, ih, List.mem_cons]
      constructor
      · rintro h c' (rfl | hmem)
        · rfl
        · exact h c' hmem
      · intro h c' hmem
        exact h c' (Or.inr hmem)
    | error e =>
      simp only [seqChecks]
      constructor
      · intro h
        exact absurd h (by simp)
      · intro h
        exact absurd (h _ (List.mem_cons_self _ _)) (by simp)

theorem typeCheck_ok {fs : PyDict} {p : PyVal → Bool} {msg : String}
    {fields : List String} (h : typeCheck fs p msg fields = .ok ()) :
    ∀ f ∈ fields, p (getf fs f) = true := by
  intro f hf
  by_contra hp
  have hpb : (!(p (getf fs f))) = true := by
    cases hx : p (getf fs f)
    · rfl
    · exact absurd hx hp
  rcases hfind : fields.find? (fun g => !(p (getf fs g))) with _ | g
  · exact (List.find?_eq_none.mp hfind f hf) hpb
  · rw [typeCheck, hfind] at h
    exact Except.noConfusion h

theorem chkFloatRange_ok {fs : PyDict} (h : chkFloatRange fs = .ok ()) :
    ∀ f ∈ floatFields, 0 ≤ toRat (getf fs f) ∧ toRat (getf fs f) ≤ 1 := by
  intro f hf
  by_contra hp
  have hpb : (!(decide (0 ≤ toRat (getf fs f)) && decide (toRat (getf fs f) ≤ 1))) = true := by
    rcases hx : decide (0 ≤ toRat (getf fs f)) && decide (toRat (getf fs f) ≤ 1)
    · rfl
    · rw [Bool.and_eq_true] at hx
      exact absurd ⟨of_decide_eq_true hx.1, of_decide_eq_true hx.2⟩ hp
  rcases hfind : floatFields.find?
      (fun g => !(decide (0 ≤ toRat (getf fs g)) && decide (toRat (getf fs g) ≤ 1))) with _ | g
  · exact (List.find?_eq_none.mp hfind f hf) hpb
  · rw [chkFloatRange, hfind] at h
    exact Except.noConfusion h

theorem chkAssetList_ok {xs : List PyVal} (h : chkAssetList xs = .ok ()) :
    ∀ a ∈ xs, pyInStrs a allowedAssets = true := by
  induction xs with
  | nil => simp
  | cons a rest ih =>
    rcases hx : pyInStrs a allowedAssets with _ | _
    · rw [chkAssetList, hx] at h
      exact Except.noConfusion h
    · rw [chkAssetList, hx] at h
      simp only [if_true] at h
      intro b hb
      rcases List.mem_cons.mp hb with rfl | hmem
      · exact hx
      · exact ih h b hmem

theorem chkPiyasaKeys_ok {fs : PyDict} {kvs : List (String × PyVal)}
    (hd : getf fs "piyasa_etki_tahmini" = .vdict kvs)
    (h : chkPiyasaKeys fs = .ok ()) :
    ∀ kv ∈ kvs, allowedAssets.contains kv.1 = true := by
  intro kv hkv
  by_contra hp
  have hpb : (!(allowedAssets.contains kv.1)) = true := by
    cases hx : allowedAssets.contains kv.1
    · rfl
    · exact absurd hx hp
  rw [chkPiyasaKeys, hd] at h
  rcases hfind : kvs.find? (fun kv => !(allowedAssets.contains kv.1)) with _ | g
  · exact (List.find?_eq_none.mp hfind kv hkv) hpb
  · have h' : (match kvs.find? (fun kv => !(allowedAssets.contains kv.1)) with
        | some _ => (Except.error "gecersiz asset key" : Except String Unit)
        | none => Except.ok ()) = Except.ok () := h
    rw [hfind] at h'
    exact Except.noConfusion h'

theorem chkMissing_ok {fs : PyDict} (h : chkMissing fs = .ok ()) :
    ∀ f ∈ requiredFields, (lookupKey fs f).isSome = true := by
  have hm : missingFields fs = [] := by
    rcases hmf : missingFields fs with _ | ⟨a, rest⟩
    · rfl
    · rw [chkMissing, hmf] at h
      exact Except.noConfusion h
  intro f hf
  have hm' : requiredFields.filter (fun f => (lookupKey fs f).isNone) = [] := hm
  have hne := List.filter_eq_nil_iff.mp hm' f hf
  cases hLk : lookupKey fs f with
  | none => exact absurd (by rw [hLk]; rfl) hne
  | some v => rfl

theorem chkAltKategoriRange_ok {fs : PyDict} (h : chkAltKategoriRange fs = .ok ()) :
    0 ≤ toRat (getf fs "alt_kategori") ∧ toRat (getf fs "alt_kategori") ≤ 13 := by
  by_contra hp
  rw [chkAltKategoriRange, if_neg hp] at h
  exact Except.noConfusion h

theorem chkEnum_ok {fs : PyDict} {field : String} {allowed : List String}
    (h : chkEnum fs field allowed = .ok ()) :
    pyInStrs (getf fs field) allowed = true := by
  by_contra hp
  rw [chkEnum, if_neg (by simpa using hp)] at h
  exact Except.noConfusion h

/-! ### Claim theorems -/

/-- C3 (counterexample): the record accepted by the validator may carry an
`olay_tipi` value that belongs to none of the fixed vocabularies used
anywhere in validation — so it is false that all seven string fields are
vocabulary-checked; only six are, and `olay_tipi` is merely type-checked. -/
theorem olay_tipi_not_vocabulary_checked :
    validateFeatures olayFreeRecord = .ok ()
    ∧ getf olayFreeRecord "olay_tipi" = .vstr "serbest_deger_xyz"
    ∧ "serbest_deger_xyz" ∉
        allowedEtkiYonu ++ allowedDuygu ++ allowedTon ++ allowedAciliyet ++
        allowedEtkiSuresi ++ allowedBeklenti ++ allowedAssets ++ allowedDirections := by
  refine ⟨rfl, rfl, ?_⟩
  decide

/-- C3 (amended): the validation gate is hard — a record the validator
accepts has every required field present, every confidence field in
[0, 1], `alt_kategori` in [0, 13], the six vocabulary-checked enum-string
fields (`etki_yonu`, `duygu`, `ton`, `aciliyet`, `etki_suresi`,
`beklenti_karsilama`) inside their vocabularies, and every asset token of
the affected-assets list and of the market-impact map keys inside the
7-item whitelist; and whenever the Grok response record fails validation,
`extract_and_save` returns `false` and inserts no row. -/
theorem validation_hard_gate :
    (∀ fs : PyDict, validateFeatures fs = .ok () →
      (∀ f ∈ requiredFields, (lookupKey fs f).isSome = true)
      ∧ (∀ f ∈ floatFields, 0 ≤ toRat (getf fs f) ∧ toRat (getf fs f) ≤ 1)
      ∧ (0 ≤ toRat (getf fs "alt_kategori") ∧ toRat (getf fs "alt_kategori") ≤ 13)
      ∧ pyInStrs (getf fs "etki_yonu") allowedEtkiYonu = true
      ∧ pyInStrs (getf fs "duygu") allowedDuygu = true
      ∧ pyInStrs (getf fs "ton") allowedTon = true
      ∧ pyInStrs (getf fs "aciliyet") allowedAciliyet = true
      ∧ pyInStrs (getf fs "etki_suresi") allowedEtkiSuresi = true
      ∧ pyInStrs (getf fs "beklenti_karsilama") allowedBeklenti = true
      ∧ (∀ xs, getf fs "etkilenen_varlik_sinifi" = .vlist xs →
          ∀ a ∈ xs, pyInStrs a allowedAssets = true)
      ∧ (∀ kvs, getf fs "piyasa_etki_tahmini" = .vdict kvs →
          ∀ kv ∈ kvs, allowedAssets.contains kv.1 = true))
    ∧ (∀ (env : OrchestratorEnv) (fs : PyDict) (e : String),
        1 ≤ env.maxRetries → env.sendOutcomes 1 = .parsed fs →
        validateFeatures fs = .error e →
        extractAndSave env = (false, none)) := by
  constructor
  · intro fs h
    simp only [validateFeatures] at h
    have H := (seqChecks_ok_iff _).mp h
    have h01 : chkMissing fs = .ok () := H _ (by simp)
    have h09 : chkFloatRange fs = .ok () := H _ (by simp)
    have h10 : chkAltKategoriRange fs = .ok () := H _ (by simp)
    have h11 : chkEnum fs "etki_yonu" allowedEtkiYonu = .ok () := H _ (by simp)
    have h12 : chkEnum fs "duygu" allowedDuygu = .ok () := H _ (by simp)
    have h13 : chkEnum fs "ton" allowedTon = .ok () := H _ (by simp)
    have h14 : chkEnum fs "aciliyet" allowedAciliyet = .ok () := H _ (by simp)
    have h15 : chkEnum fs "etki_suresi" allowedEtkiSuresi = .ok () := H _ (by simp)
    have h16 : chkEnum fs "beklenti_karsilama" allowedBeklenti = .ok () := H _ (by simp)
    have h18 : chkVarlikSinifi fs = .ok () := H _ (by simp)
    have h19 : chkPiyasaKeys fs = .ok () := H _ (by simp)
    refine ⟨chkMissing_ok h01, chkFloatRange_ok h09, chkAltKategoriRange_ok h10,
      chkEnum_ok h11, chkEnum_ok h12, chkEnum_ok h13, chkEnum_ok h14,
      chkEnum_ok h15, chkEnum_ok h16, ?_, ?_⟩
    · intro xs hxs a ha
      rw [chkVarlikSinifi, hxs] at h18
      have h18' : chkAssetList xs = .ok () := h18
      exact chkAssetList_ok h18' a ha
    · intro kvs hkvs kv hkv
      exact chkPiyasaKeys_ok hkvs h19 kv hkv
  · intro env fs e h1 hsend hval
    obtain ⟨k, hk⟩ : ∃ k, env.maxRetries = k + 1 := ⟨env.maxRetries - 1, by omega⟩
    have hext : (extractFeaturesModel env.sendOutcomes env.maxRetries).outcome =
        .failure (.parse e) := by
      rw [hk, extractFeaturesModel]
      show (extractGo env.sendOutcomes (k + 1) (1 :: List.range' 2 k)).outcome = _
      simp [extractGo, hsend, sendRequest, hval, retryableErr]
    cases hc : env.isConnected with
    | false => simp [extractAndSave, hc]
    | true =>
      cases ha : env.article with
      | none => simp [extractAndSave, hc, ha]
      | some art =>
        by_cases hcont : art.content = ""
        · simp [extractAndSave, hc, ha, hcont]
        · simp [extractAndSave, hc, ha, hcont, hext]

/-- Witness for C3 (amended): the valid stub record is accepted with its
`duygu` inside the vocabulary, and a run whose enrichment response carries
an out-of-vocabulary `duygu` fails without persisting anything. -/
theorem validation_hard_gate_witness :
    validateFeatures goodRecord = .ok ()
    ∧ pyInStrs (getf goodRecord "duygu") allowedDuygu = true
    ∧ validateFeatures badDuyguRecord = .error "gecersiz enum duygu"
    ∧ extractAndSave badRunEnv = (false, none) :=
  ⟨rfl, (validation_hard_gate.1 goodRecord rfl).2.2.2.2.1,
   rfl,
   validation_hard_gate.2 badRunEnv badDuyguRecord "gecersiz enum duygu"
     (by decide) rfl rfl⟩

/-- C9: a record whose `surpriz_confidence` and `alt_kategori` hold Python
booleans passes the validator: `isinstance(x, (int, float))` and
`isinstance(x, int)` accept booleans (a subclass of `int`), and `True`
compares as 1 inside both range checks, so the record is not rejected. -/
theorem bool_in_numeric_fields_accepted :
    getf boolNumericRecord "surpriz_confidence" = .vbool true
    ∧ getf boolNumericRecord "alt_kategori" = .vbool true
    ∧ isNumLike (.vbool true) = true
    ∧ isIntLike (.vbool true) = true
    ∧ (0 ≤ toRat (.vbool true) ∧ toRat (.vbool true) ≤ 1)
    ∧ validateFeatures boolNumericRecord = .ok () := by
  refine ⟨rfl, rfl, rfl, rfl, ⟨?_, ?_⟩, rfl⟩
  · norm_num [toRat]
  · norm_num [toRat]

/-- C1: for a delivered body parsing to integer `article_id`/`retry_count`
with `retry_count < max_retries`, a failing callback outcome makes
`_handle_message` nack without requeue, sleep `retry_delay * 2 ^ retry_count`
seconds, and then invoke `publish` exactly once, for the same article id,
with `retry_count + 1`. -/
theorem handle_message_retries_on_failure (cfg : HandlerConfig) (kvs : PyDict)
    (aid : PyVal) (n : Int) (cb : PyVal → PyVal → Bool)
    (h₁ : lookupKey kvs "article_id" = some aid)
    (h₂ : lookupKey kvs "retry_count" = some (.vint n))
    (h₃ : n < cfg.maxRetries)
    (h₄ : cb aid (.vint n) = false) :
    handleMessage cfg (some kvs) cb =
      [.callbackCall aid (.vint n), .nackNoRequeue,
       .sleep (cfg.retryDelay * (2 : ℚ) ^ n),
       .publish aid ((n : ℚ) + 1)] := by
  have h₃q : ((n : ℚ) : ℚ) < (cfg.maxRetries : ℚ) := by exact_mod_cast h₃
  simp [handleMessage, h₁, h₂, h₄, pyNum?, pyTwoPow, h₃q]

/-- Witness for C1: article 7 at retry 1 with limit 3 and delay 1. -/
theorem handle_message_retries_on_failure_witness :
    (1 : Int) < (3 : Int)
    ∧ handleMessage ⟨3, 1⟩
        (some [("article_id", .vint 7), ("retry_count", .vint 1)])
        (fun _ _ => false) =
      [.callbackCall (.vint 7) (.vint 1), .nackNoRequeue,
       .sleep ((1 : ℚ) * (2 : ℚ) ^ (1 : Int)),
       .publish (.vint 7) (((1 : Int) : ℚ) + 1)] :=
  ⟨by norm_num,
   handle_message_retries_on_failure ⟨3, 1⟩
     [("article_id", .vint 7), ("retry_count", .vint 1)]
     (.vint 7) 1 (fun _ _ => false) rfl rfl (by norm_num) rfl⟩

/-- C2: at or above the retry limit a failing outcome produces only a nack
without requeue (the broker then dead-letters the message through the
declared dead-letter routing) and no republish at all; moreover, whatever
comes in, any `publish` the handler ever emits for a message whose
`retry_count` is the integer `m` (or absent, defaulting to 0) carries
`m + 1` and never exceeds `max_retries`. -/
theorem handle_message_terminal_at_limit (cfg : HandlerConfig) (kvs : PyDict)
    (aid : PyVal) (n : Int) (cb : PyVal → PyVal → Bool)
    (h₁ : lookupKey kvs "article_id" = some aid)
    (h₂ : lookupKey kvs "retry_count" = some (.vint n))
    (h₃ : cfg.maxRetries ≤ n)
    (h₄ : cb aid (.vint n) = false) :
    handleMessage cfg (some kvs) cb =
      [.callbackCall aid (.vint n), .nackNoRequeue]
    ∧ (∀ (kvs' : PyDict) (cb' : PyVal → PyVal → Bool) (aid' : PyVal) (q : ℚ) (m : Int),
        (lookupKey kvs' "retry_count").getD (.vint 0) = .vint m →
        MsgAction.publish aid' q ∈ handleMessage cfg (some kvs') cb' →
        q = (m : ℚ) + 1 ∧ q ≤ (cfg.maxRetries : ℚ)) := by
  constructor
  · have h₃q : ¬ (((n : ℚ) : ℚ) < (cfg.maxRetries : ℚ)) := by
      push_neg
      exact_mod_cast h₃
    simp [handleMessage, h₁, h₂, h₄, pyNum?, h₃q]
  · intro kvs' cb' aid' q m hm hmem
    simp only [handleMessage] at hmem
    rw [hm] at hmem
    by_cases hcb : cb' ((lookupKey kvs' "article_id").getD .vnone) (.vint m)
    · simp [hcb] at hmem
    · by_cases hlt : ((m : ℚ) : ℚ) < (cfg.maxRetries : ℚ)
      · simp [hcb, pyNum?, hlt] at hmem
        refine ⟨hmem.2, ?_⟩
        have hml : m < cfg.maxRetries := by exact_mod_cast hlt
        have hm1 : m + 1 ≤ cfg.maxRetries := hml
        rw [hmem.2]
        exact_mod_cast hm1
      · simp [hcb, pyNum?, hlt] at hmem

/-- Witness for C2: retry count 3 at limit 3 is nacked with no republish. -/
theorem handle_message_terminal_at_limit_witness :
    (3 : Int) ≤ (3 : Int)
    ∧ handleMessage ⟨3, 1⟩
        (some [("article_id", .vint 7), ("retry_count", .vint 3)])
        (fun _ _ => false) =
      [.callbackCall (.vint 7) (.vint 3), .nackNoRequeue] :=
  ⟨by norm_num,
   (handle_message_terminal_at_limit ⟨3, 1⟩
     [("article_id", .vint 7), ("retry_count", .vint 3)]
     (.vint 7) 3 (fun _ _ => false) rfl rfl (by norm_num) rfl).1⟩

/-- C8: an unparsable body is nacked without requeue immediately; the
callback is never invoked and nothing is republished. -/
theorem handle_message_unparsable_body (cfg : HandlerConfig)
    (cb : PyVal → PyVal → Bool) :
    handleMessage cfg none cb = [.nackNoRequeue]
    ∧ (∀ a r, MsgAction.callbackCall a r ∉ handleMessage cfg none cb)
    ∧ (∀ a q, MsgAction.publish a q ∉ handleMessage cfg none cb) := by
  refine ⟨rfl, ?_, ?_⟩
  · intro a r hmem
    simp [handleMessage] at hmem
  · intro a q hmem
    simp [handleMessage] at hmem

/-- C10: a body that is valid JSON but lacks both keys is not treated as
unparsable: the callback runs with `None` and the defaulted retry count 0,
and the outcome then follows the ordinary ack / retry / dead-letter path. -/
theorem handle_message_missing_keys (cfg : HandlerConfig) (kvs : PyDict)
    (cb : PyVal → PyVal → Bool)
    (h₁ : lookupKey kvs "article_id" = none)
    (h₂ : lookupKey kvs "retry_count" = none) :
    handleMessage cfg (some kvs) cb =
      if cb .vnone (.vint 0) then
        [.callbackCall .vnone (.vint 0), .ack]
      else if (0 : ℚ) < (cfg.maxRetries : ℚ) then
        [.callbackCall .vnone (.vint 0), .nackNoRequeue,
         .sleep (cfg.retryDelay * 1), .publish .vnone 1]
      else
        [.callbackCall .vnone (.vint 0), .nackNoRequeue] := by
  by_cases hcb : cb .vnone (.vint 0)
  · simp [handleMessage, h₁, h₂, hcb]
  · by_cases hlt : (0 : ℚ) < (cfg.maxRetries : ℚ)
    · simp [handleMessage, h₁, h₂, hcb, hlt, pyNum?, pyTwoPow]
    · simp [handleMessage, h₁, h₂, hcb, hlt, pyNum?]

/-- Witness for C10: the empty JSON object with a failing callback at
limit 3 goes down the retry path with article id `None` and count 1. -/
theorem handle_message_missing_keys_witness :
    lookupKey ([] : PyDict) "article_id" = none
    ∧ handleMessage ⟨3, 1⟩ (some ([] : PyDict)) (fun _ _ => false) =
        [.callbackCall .vnone (.vint 0), .nackNoRequeue,
         .sleep ((1 : ℚ) * 1), .publish .vnone 1] := by
  refine ⟨rfl, ?_⟩
  have h := handle_message_missing_keys ⟨3, 1⟩ [] (fun _ _ => false) rfl rfl
  simpa using h

/-- C4 (counterexample): a persistent 500 response and a persistent 429
response each abort `extract_features` on the very first attempt — no
backoff sleep, no second attempt — because `GrokAPIError` is re-raised by
the non-retryable clause and `GrokRateLimitError` is caught by no clause. -/
theorem server_errors_not_retried :
    extractFeaturesModel (fun _ => .httpStatus 500) 3 =
      ⟨.failure (.api 500), [], 1⟩
    ∧ extractFeaturesModel (fun _ => .httpStatus 429) 3 =
      ⟨.failure .rateLimit, [], 1⟩ :=
  ⟨rfl, rfl⟩

/-- C4 (amended): with the attempt cap 3, timeouts and transport-connect
failures are retried with `2 ^ attempt` seconds of backoff up to the cap,
while authentication failures (401), rate-limit rejections (429),
server-side (5xx) responses and malformed or non-conforming response
content are all raised immediately without any retry; a retryable failure
followed by a valid response succeeds after one backoff sleep. -/
theorem grok_retry_policy (o : ℕ → SendResult) :
    ((∀ k, o k = .httpTimeout) →
      extractFeaturesModel o 3 = ⟨.failure .timeout, [2 ^ 1, 2 ^ 2], 3⟩)
    ∧ ((∀ k, o k = .connectError) →
      extractFeaturesModel o 3 = ⟨.failure .conn, [2 ^ 1, 2 ^ 2], 3⟩)
    ∧ (o 1 = .httpStatus 401 →
      extractFeaturesModel o 3 = ⟨.failure .auth, [], 1⟩)
    ∧ (o 1 = .httpStatus 429 →
      extractFeaturesModel o 3 = ⟨.failure .rateLimit, [], 1⟩)
    ∧ (∀ c, 500 ≤ c → o 1 = .httpStatus c →
      extractFeaturesModel o 3 = ⟨.failure (.api c), [], 1⟩)
    ∧ (o 1 = .badContent →
      extractFeaturesModel o 3 = ⟨.failure (.parse "json decode edilemedi"), [], 1⟩)
    ∧ (∀ fs e, o 1 = .parsed fs → validateFeatures fs = .error e →
      extractFeaturesModel o 3 = ⟨.failure (.parse e), [], 1⟩)
    ∧ (∀ fs, o 1 = .httpTimeout → o 2 = .parsed fs → validateFeatures fs = .ok () →
      extractFeaturesModel o 3 = ⟨.success fs, [2 ^ 1], 2⟩) := by
  refine ⟨?_, ?_, ?_, ?_, ?_, ?_, ?_, ?_⟩
  · intro h
    simp [extractFeaturesModel, List.range', extractGo, h 1, h 2, h 3,
      sendRequest, retryableErr]
  · intro h
    simp [extractFeaturesModel, List.range', extractGo, h 1, h 2, h 3,
      sendRequest, retryableErr]
  · intro h
    simp [extractFeaturesModel, List.range', extractGo, h, sendRequest, retryableErr]
  · intro h
    simp [extractFeaturesModel, List.range', extractGo, h, sendRequest, retryableErr]
  · intro c hc h
    have hne1 : c ≠ 401 := by omega
    have hne2 : c ≠ 429 := by omega
    simp [extractFeaturesModel, List.range', extractGo, h, sendRequest,
      retryableErr, hne1, hne2]
  · intro h
    simp [extractFeaturesModel, List.range', extractGo, h, sendRequest, retryableErr]
  · intro fs e h hval
    simp [extractFeaturesModel, List.range', extractGo, h, sendRequest,
      hval, retryableErr]
  · intro fs h1 h2 hval
    simp [extractFeaturesModel, List.range', extractGo, h1, h2, sendRequest,
      hval, retryableErr]

/-- Witness for C4 (amended): three straight timeouts sleep 2 and 4 seconds
and then raise the timeout. -/
theorem grok_retry_policy_witness :
    extractFeaturesModel (fun _ => .httpTimeout) 3 =
      ⟨.failure .timeout, [2 ^ 1, 2 ^ 2], 3⟩ :=
  (grok_retry_policy (fun _ => .httpTimeout)).1 (fun _ => rfl)

/-- C5: a fully successful run inserts a row tagged `grok-beta` with the
database-clock extraction timestamp — but the `processing_time_ms` column
receives the raw `time.time()` value taken at entry (here the epoch second
1000), not the measured 2000 ms duration of the run: `extract_and_save`
passes `start_time` where `_save_features` expects `processing_time_ms`. -/
theorem processing_time_column_gets_start_timestamp :
    (extractAndSave okRunEnv).1 = true
    ∧ (extractAndSave okRunEnv).2 =
        some ⟨123, goodRecord, "grok-beta", 1002, 1000⟩
    ∧ ((extractAndSave okRunEnv).2.map SavedRow.modelVersion) = some "grok-beta"
    ∧ ((extractAndSave okRunEnv).2.map SavedRow.extractionDate) = some okRunEnv.dbNow
    ∧ ((extractAndSave okRunEnv).2.map SavedRow.processingTimeMs) = some okRunEnv.startTime
    ∧ measuredDurationMs okRunEnv = 2000
    ∧ ((extractAndSave okRunEnv).2.map SavedRow.processingTimeMs) ≠
        some (measuredDurationMs okRunEnv) := by
  have hmd : measuredDurationMs okRunEnv = 2000 := by
    norm_num [measuredDurationMs, okRunEnv]
  have hpt : ((extractAndSave okRunEnv).2.map SavedRow.processingTimeMs) =
      some (1000 : ℚ) := rfl
  refine ⟨rfl, rfl, rfl, rfl, rfl, hmd, ?_⟩
  rw [hpt, hmd]
  norm_num

/-- C6 (counterexample): the publish-side limiter keeps no last-call state
at all — at limit 4 it sleeps the full 15-second interval on every single
call, so it waits even when the elapsed time since the previous call
already exceeds the minimum interval. -/
theorem publish_limiter_always_sleeps :
    rabbitApplyRateLimit 4 = (15, 1) ∧ (rabbitApplyRateLimit 4).1 ≠ 0 := by
  constructor
  · norm_num [rabbitApplyRateLimit]
  · norm_num [rabbitApplyRateLimit]

/-- C6 (amended): the enrichment-side limiter behaves as specified — zero
limit means no wait; otherwise it waits exactly the remainder of the
minimum interval when the elapsed time falls short (updating the last-call
timestamp to the post-sleep clock and counting a rate-limit hit), waits not
at all otherwise, and its wait is non-zero exactly when the elapsed time is
below the minimum interval. The publish-side limiter instead sleeps the
full `60 / limit` interval unconditionally (counting a hit each time),
with zero limit disabling it. -/
theorem rate_limiter_behaviour (n : ℕ) (last now : ℚ) :
    grokApplyRateLimit 0 last now = ⟨0, 0, last⟩
    ∧ (0 < n → now - last < 60 / (n : ℚ) →
        grokApplyRateLimit n last now =
          ⟨60 / (n : ℚ) - (now - last), 1, now + (60 / (n : ℚ) - (now - last))⟩)
    ∧ (0 < n → 60 / (n : ℚ) ≤ now - last →
        grokApplyRateLimit n last now = ⟨0, 0, now⟩)
    ∧ (0 < n →
        ((grokApplyRateLimit n last now).wait ≠ 0 ↔ now - last < 60 / (n : ℚ)))
    ∧ rabbitApplyRateLimit 0 = (0, 0)
    ∧ (0 < n → rabbitApplyRateLimit n = (60 / (n : ℚ), 1)) := by
  refine ⟨rfl, ?_, ?_, ?_, rfl, ?_⟩
  · intro hn hlt
    have hn' : n ≠ 0 := Nat.pos_iff_ne_zero.mp hn
    simp [grokApplyRateLimit, hn', hlt]
  · intro hn hge
    have hn' : n ≠ 0 := Nat.pos_iff_ne_zero.mp hn
    have : ¬ (now - last < 60 / (n : ℚ)) := not_lt.mpr hge
    simp [grokApplyRateLimit, hn', this]
  · intro hn
    have hn' : n ≠ 0 := Nat.pos_iff_ne_zero.mp hn
    by_cases hlt : now - last < 60 / (n : ℚ)
    · simp only [grokApplyRateLimit, hn', if_false, if_pos hlt, if_neg hn']
      constructor
      · intro _
        exact hlt
      · intro _
        exact sub_ne_zero_of_ne (ne_of_gt hlt)
    · simp [grokApplyRateLimit, hn', hlt]
  · intro hn
    have hn' : n ≠ 0 := Nat.pos_iff_ne_zero.mp hn
    simp [rabbitApplyRateLimit, hn']

/-- Witness for C6 (amended): limit 4, last call at 0, now 10 — elapsed 10
is below the 15-second interval, so the caller waits 5 seconds and the
timestamp advances to 15. -/
theorem rate_limiter_behaviour_witness :
    grokApplyRateLimit 4 0 10 =
      ⟨60 / ((4 : ℕ) : ℚ) - (10 - 0), 1, 10 + (60 / ((4 : ℕ) : ℚ) - (10 - 0))⟩ :=
  (rate_limiter_behaviour 4 0 10).2.1 (by norm_num) (by norm_num)

/-- C7 (counterexample): the fetch-by-id used by the orchestrator performs
a single attempt and swallows even a transient `PostgresError`, silently
returning `None` — there is no 3-attempt retry and nothing propagates. -/
theorem fetch_by_id_never_retries :
    haberIdIleGetir .pgError = (none, 1)
    ∧ haberIdIleGetir .otherError = (none, 1) :=
  ⟨rfl, rfl⟩

/-- C7 (amended): `haberleri_getir` and `haber_durumunu_guncelle` retry up
to 3 attempts on `PostgresError` with backoff `min(8, 2 ^ attempt) + jitter`
and propagate other errors immediately, while `haber_id_ile_getir` always
makes exactly one attempt and maps every error to `None`. -/
theorem store_gateway_retry (oL : ℕ → DbAttempt (List PyDict))
    (oU : ℕ → DbAttempt ℕ) (jit : ℕ → ℚ) (rows : List PyDict)
    (att : FetchOneAttempt) :
    ((∀ d, oL d = .pgError) →
      haberleriGetir oL jit 3 = (.pgRaise, [1 + jit 0, 2 + jit 1], 3))
    ∧ (oL 0 = .pgError → oL 1 = .ok rows →
      haberleriGetir oL jit 3 = (.ok rows, [1 + jit 0], 2))
    ∧ (oL 0 = .otherError →
      haberleriGetir oL jit 3 = (.otherRaise, [], 1))
    ∧ (oL 0 = .ok rows →
      haberleriGetir oL jit 3 = (.ok rows, [], 1))
    ∧ ((∀ d, oU d = .pgError) →
      haberDurumunuGuncelle oU jit 3 = (.pgRaise, [1 + jit 0, 2 + jit 1], 3))
    ∧ (∀ cnt, oU 0 = .pgError → oU 1 = .ok cnt → 0 < cnt →
      haberDurumunuGuncelle oU jit 3 = (.ok true, [1 + jit 0], 2))
    ∧ (oU 0 = .ok 0 →
      haberDurumunuGuncelle oU jit 3 = (.ok false, [], 1))
    ∧ (oU 0 = .otherError →
      haberDurumunuGuncelle oU jit 3 = (.otherRaise, [], 1))
    ∧ (haberIdIleGetir att).2 = 1
    ∧ (haberIdIleGetir .pgError).1 = none := by
  refine ⟨?_, ?_, ?_, ?_, ?_, ?_, ?_, ?_, ?_, rfl⟩
  · intro h
    simp [haberleriGetir, dbRetryGo, List.range, List.range', h 0, h 1, h 2]
    norm_num [min_def]
  · intro h0 h1
    simp [haberleriGetir, dbRetryGo, List.range, List.range', h0, h1]
  · intro h0
    simp [haberleriGetir, dbRetryGo, List.range, List.range', h0]
  · intro h0
    simp [haberleriGetir, dbRetryGo, List.range, List.range', h0]
  · intro h
    simp [haberDurumunuGuncelle, dbRetryGo, List.range, List.range', h 0, h 1, h 2]
    norm_num [min_def]
  · intro cnt h0 h1 hcnt
    have hdec : decide (0 < cnt) = true := decide_eq_true hcnt
    simp [haberDurumunuGuncelle, dbRetryGo, List.range, List.range', h0, h1, hdec]
  · intro h0
    simp [haberDurumunuGuncelle, dbRetryGo, List.range, List.range', h0]
  · intro h0
    simp [haberDurumunuGuncelle, dbRetryGo, List.range, List.range', h0]
  · cases att <;> rfl

/-- Witness for C7 (amended): three straight transient failures of the
pending-articles fetch sleep 1 and 2 seconds (zero jitter) and re-raise. -/
theorem store_gateway_retry_witness :
    haberleriGetir (fun _ => .pgError) (fun _ => 0) 3 = (.pgRaise, [1, 2], 3) := by
  have h := (store_gateway_retry (fun _ => .pgError) (fun _ => .ok 1)
    (fun _ => 0) [] .noRow).1 (fun _ => rfl)
  simpa using h

end FeatureSvc
